import Mathlib

/-!
Verification development for the ESP32-RemoteController gripper motion-control
stack: the slope (trajectory) planner `Slope_planner_c`
(src/lib/SerialServo/slope_planner.cpp), the PID controller `PID_controller_c`
(src/lib/Gripper/pid_controller.cpp, src/lib/SerialServo/pid_controller.hpp)
and the gripper orchestration layer (src/lib/SerialServo/gripper_controller.cpp).

The C `float` arithmetic is embedded over `ℚ` (exact arithmetic); all control
flow (branches, clamps, state machine) is translated branch-for-branch from
the source.  `uint32_t` millisecond timestamps are embedded as `ℕ` with the
wrap-around subtraction made explicit (`u32_sub`).
-/

/-- `Math_abs` from src/lib/SerialServo/math_utils.h (`fabsf`). -/
def Math_abs (value : ℚ) : ℚ :=
  if value < 0 then -value else value

/-- `Math_constrain_value` from src/lib/SerialServo/math_utils.h. -/
def Math_constrain_value (value min_value max_value : ℚ) : ℚ :=
  if value < min_value then min_value
  else if value > max_value then max_value
  else value

/-- State of the slope planner class `Slope_planner_c`
(src/lib/SerialServo/slope_planner.hpp). -/
structure Slope_planner_c where
  increase_value : ℚ
  decrease_value : ℚ
  target : ℚ
  now_planning : ℚ
  now_real : ℚ
  out : ℚ
  real_first : Bool
deriving DecidableEq

namespace Slope_planner_c

/-- `Slope_planner_c::Init` (slope_planner.cpp). -/
def Init (inc dec : ℚ) (real_first : Bool) : Slope_planner_c :=
  { increase_value := inc, decrease_value := dec, real_first := real_first,
    target := 0, now_planning := 0, now_real := 0, out := 0 }

/-- `Slope_planner_c::Set_target` (slope_planner.hpp). -/
def Set_target (s : Slope_planner_c) (target : ℚ) : Slope_planner_c :=
  { s with target := target }

/-- `Slope_planner_c::Set_now_real` (slope_planner.hpp). -/
def Set_now_real (s : Slope_planner_c) (real_value : ℚ) : Slope_planner_c :=
  { s with now_real := real_value }

/-- `Slope_planner_c::Set_increase_value` (slope_planner.hpp). -/
def Set_increase_value (s : Slope_planner_c) (inc : ℚ) : Slope_planner_c :=
  { s with increase_value := inc }

/-- `Slope_planner_c::Set_decrease_value` (slope_planner.hpp). -/
def Set_decrease_value (s : Slope_planner_c) (dec : ℚ) : Slope_planner_c :=
  { s with decrease_value := dec }

/-- `Slope_planner_c::Set_real_first` (slope_planner.hpp). -/
def Set_real_first (s : Slope_planner_c) (real_first : Bool) : Slope_planner_c :=
  { s with real_first := real_first }

/-- `Slope_planner_c::Reset` (slope_planner.cpp). -/
def Reset (s : Slope_planner_c) : Slope_planner_c :=
  { s with target := 0, now_planning := 0, now_real := 0, out := 0 }

/-- The real-first re-anchoring condition of `Slope_planner_c::Update_period`
(slope_planner.cpp lines 54-60): the anchor fires when `real_first` is set and
`now_real` lies between `now_planning` and `target` (inclusive, either side). -/
def anchor_fires (s : Slope_planner_c) : Prop :=
  s.real_first = true ∧
    ((s.target ≥ s.now_real ∧ s.now_real ≥ s.now_planning) ∨
     (s.target ≤ s.now_real ∧ s.now_real ≤ s.now_planning))

instance (s : Slope_planner_c) : Decidable s.anchor_fires := by
  unfold anchor_fires; infer_instance

/-- `Slope_planner_c::Update_period` (slope_planner.cpp lines 51-115),
translated branch-for-branch. -/
def Update_period (s : Slope_planner_c) : Slope_planner_c :=
  let out0 := if s.anchor_fires then s.now_real else s.out
  let out1 :=
    if s.now_planning > 0 then
      if s.target > s.now_planning then
        (if Math_abs (s.now_planning - s.target) > s.increase_value then
          out0 + s.increase_value else s.target)
      else if s.target < s.now_planning then
        (if Math_abs (s.now_planning - s.target) > s.decrease_value then
          out0 - s.decrease_value else s.target)
      else out0
    else if s.now_planning < 0 then
      if s.target < s.now_planning then
        (if Math_abs (s.now_planning - s.target) > s.increase_value then
          out0 - s.increase_value else s.target)
      else if s.target > s.now_planning then
        (if Math_abs (s.now_planning - s.target) > s.decrease_value then
          out0 + s.decrease_value else s.target)
      else out0
    else
      if s.target > s.now_planning then
        (if Math_abs (s.now_planning - s.target) > s.increase_value then
          out0 + s.increase_value else s.target)
      else if s.target < s.now_planning then
        (if Math_abs (s.now_planning - s.target) > s.increase_value then
          out0 - s.increase_value else s.target)
      else out0
  { s with out := out1, now_planning := out1 }

/-- The rate that governs the step taken at the current tick, following the
branch structure of `Update_period`: from positive planning values the
increase (toward larger targets) or decrease rate, mirrored for negative
planning values, and the increase rate in both directions from zero. -/
def active_rate (s : Slope_planner_c) : ℚ :=
  if s.now_planning > 0 then
    (if s.target > s.now_planning then s.increase_value else s.decrease_value)
  else if s.now_planning < 0 then
    (if s.target < s.now_planning then s.increase_value else s.decrease_value)
  else s.increase_value

end Slope_planner_c

/-- The per-tick statement of claim C1, at the planner state `s` holding just
before the second of the two consecutive `Update_period` calls (so `s.out` is
the previous tick's output): either the remaining distance is within the
active rate and the output snaps exactly to the target, or the output changes
by at most `max increase_value decrease_value`. -/
def C1claim_at (s : Slope_planner_c) : Prop :=
  if Math_abs (s.now_planning - s.target) ≤ s.active_rate then
    (s.Update_period).out = s.target
  else |(s.Update_period).out - s.out| ≤ max s.increase_value s.decrease_value

/-- `PID_EPSILON` (pid_controller.cpp / pid_controller.hpp): `1e-6f`. -/
def PID_EPSILON : ℚ := 1 / 1000000

/-- `PID_DEFAULT_DT` (pid_controller.cpp): `0.001f`. -/
def PID_DEFAULT_DT : ℚ := 1 / 1000

/-- `PID_state_c` (src/lib/SerialServo/pid_controller.hpp). -/
inductive PID_state_c where
  | PID_STATE_STOP
  | PID_STATE_NORMAL
  | PID_STATE_SATURATED
  | PID_STATE_DEAD_ZONE
deriving DecidableEq

/-- State of the PID controller class `PID_controller_c`
(src/lib/SerialServo/pid_controller.hpp). -/
structure PID_controller_c where
  kp : ℚ
  ki : ℚ
  kd : ℚ
  kf : ℚ
  dt : ℚ
  dead_zone : ℚ
  output_limit : ℚ
  integral_limit : ℚ
  i_variable_speed_a : ℚ
  i_variable_speed_b : ℚ
  i_separate_threshold : ℚ
  enable_d_first : Bool
  enable_integral_limit : Bool
  enable_output_limit : Bool
  target : ℚ
  feedback : ℚ
  output : ℚ
  error : ℚ
  integral_error : ℚ
  pre_feedback : ℚ
  pre_target : ℚ
  pre_error : ℚ
  pre_output : ℚ
  state : PID_state_c
  p_out : ℚ
  i_out : ℚ
  d_out : ℚ
  f_out : ℚ
  max_error : ℚ
  update_count : ℕ
deriving DecidableEq

namespace PID_controller_c

/-- `PID_controller_c::Init` (pid_controller.cpp lines 33-63): zero the whole
object, set the three gains and the default control parameters. -/
def Init (kp ki kd : ℚ) : PID_controller_c :=
  { kp := kp, ki := ki, kd := kd, kf := 0,
    dt := PID_DEFAULT_DT, dead_zone := 0, output_limit := 0,
    integral_limit := 0, i_variable_speed_a := 0, i_variable_speed_b := 0,
    i_separate_threshold := 0, enable_d_first := false,
    enable_integral_limit := false, enable_output_limit := false,
    target := 0, feedback := 0, output := 0, error := 0, integral_error := 0,
    pre_feedback := 0, pre_target := 0, pre_error := 0, pre_output := 0,
    state := PID_state_c.PID_STATE_STOP,
    p_out := 0, i_out := 0, d_out := 0, f_out := 0, max_error := 0,
    update_count := 0 }

/-- `PID_controller_c::Init_full` (pid_controller.cpp lines 65-86): the limit
magnitudes are stored as absolute values, while the enable flags test the
SIGNED arguments against `PID_EPSILON`. -/
def Init_full (kp ki kd kf integral_limit output_limit dt dead_zone
    i_variable_speed_a i_variable_speed_b i_separate_threshold : ℚ)
    (d_first : Bool) : PID_controller_c :=
  { Init kp ki kd with
    kf := kf,
    integral_limit := Math_abs integral_limit,
    output_limit := Math_abs output_limit,
    dt := if dt > PID_EPSILON then dt else PID_DEFAULT_DT,
    dead_zone := Math_abs dead_zone,
    i_variable_speed_a := Math_abs i_variable_speed_a,
    i_variable_speed_b := Math_abs i_variable_speed_b,
    i_separate_threshold := Math_abs i_separate_threshold,
    enable_d_first := d_first,
    enable_integral_limit := if integral_limit > PID_EPSILON then true else false,
    enable_output_limit := if output_limit > PID_EPSILON then true else false }

/-- `PID_controller_c::Set_params` (pid_controller.cpp). -/
def Set_params (s : PID_controller_c) (kp ki kd : ℚ) : PID_controller_c :=
  { s with kp := kp, ki := ki, kd := kd }

/-- `PID_controller_c::Set_feedforward` (pid_controller.hpp). -/
def Set_feedforward (s : PID_controller_c) (kf : ℚ) : PID_controller_c :=
  { s with kf := kf }

/-- `PID_controller_c::Set_output_limit` (pid_controller.hpp lines 262-265):
stores `|limit|` but enables clamping only when the signed `limit` exceeds
`PID_EPSILON`. -/
def Set_output_limit (s : PID_controller_c) (limit : ℚ) : PID_controller_c :=
  { s with output_limit := Math_abs limit,
           enable_output_limit := if limit > PID_EPSILON then true else false }

/-- `PID_controller_c::Set_integral_limit` (pid_controller.hpp lines 267-270):
stores `|limit|` but enables clamping only when the signed `limit` exceeds
`PID_EPSILON`. -/
def Set_integral_limit (s : PID_controller_c) (limit : ℚ) : PID_controller_c :=
  { s with integral_limit := Math_abs limit,
           enable_integral_limit := if limit > PID_EPSILON then true else false }

/-- `PID_controller_c::Set_dead_zone` (pid_controller.hpp). -/
def Set_dead_zone (s : PID_controller_c) (dead_zone : ℚ) : PID_controller_c :=
  { s with dead_zone := Math_abs dead_zone }

/-- `PID_controller_c::Reset` (pid_controller.cpp lines 226-250). -/
def Reset (s : PID_controller_c) : PID_controller_c :=
  { s with target := 0, feedback := 0, output := 0, error := 0,
           integral_error := 0, pre_feedback := 0, pre_target := 0,
           pre_error := 0, pre_output := 0, p_out := 0, i_out := 0,
           d_out := 0, f_out := 0, max_error := 0, update_count := 0,
           state := PID_state_c.PID_STATE_STOP }

/-- `PID_controller_c::Clear_integral` (pid_controller.cpp). -/
def Clear_integral (s : PID_controller_c) : PID_controller_c :=
  { s with integral_error := 0, i_out := 0 }

/-- The dead-zone handling of `Update_period` (pid_controller.cpp lines
108-124), applied to the raw error `target - feedback`: inside the zone the
error is zeroed; outside, the dead-zone magnitude is subtracted. -/
def dead_zone_error (dead_zone e : ℚ) : ℚ :=
  if dead_zone ≥ PID_EPSILON then
    (if Math_abs e ≤ dead_zone then 0
     else if e > 0 ∧ Math_abs e > dead_zone then e - dead_zone
     else if e < 0 ∧ Math_abs e > dead_zone then e + dead_zone
     else e)
  else e

/-- The variable-speed integration ratio of `Update_period` (pid_controller.cpp
lines 138-154): 1 below threshold `a`, linear decay between `a` and `b`, 0 at
or above `b`; 1 when both thresholds are (numerically) zero. -/
def integral_speed_ratio (a b abs_error : ℚ) : ℚ :=
  if a < PID_EPSILON ∧ b < PID_EPSILON then 1
  else if abs_error ≤ a then 1
  else if abs_error < b then (b - abs_error) / (b - a)
  else 0

/-- `PID_controller_c::Update_state` (pid_controller.cpp lines 260-272): the
state classification, in the source's precedence order — STOP before
DEAD_ZONE before SATURATED before NORMAL. -/
def Update_state (s : PID_controller_c) : PID_state_c :=
  let abs_error := Math_abs s.error
  if abs_error < PID_EPSILON then PID_state_c.PID_STATE_STOP
  else if abs_error ≤ s.dead_zone then PID_state_c.PID_STATE_DEAD_ZONE
  else if s.enable_output_limit = true ∧
      Math_abs s.output ≥ s.output_limit - PID_EPSILON then
    PID_state_c.PID_STATE_SATURATED
  else PID_state_c.PID_STATE_NORMAL

/-- `PID_controller_c::Update_period` (pid_controller.cpp lines 92-206),
translated step-for-step.  The C function returns `this->output`, i.e. the
`output` field of the result.  Note that the derivative-first and feedforward
terms use the raw `target`/`feedback` arguments (not the possibly dead-zone
snapped `this->target`), exactly as the source does. -/
def Update_period (s : PID_controller_c) (target feedback : ℚ) :
    PID_controller_c :=
  let error := dead_zone_error s.dead_zone (target - feedback)
  let abs_error := Math_abs error
  let target1 :=
    if s.dead_zone ≥ PID_EPSILON ∧ Math_abs (target - feedback) ≤ s.dead_zone
    then feedback else target
  let max_error1 := if abs_error > s.max_error then abs_error else s.max_error
  let p_out := s.kp * error
  let integral_ratio :=
    integral_speed_ratio s.i_variable_speed_a s.i_variable_speed_b abs_error
  let integral0 :=
    if s.enable_integral_limit = true ∧ s.ki > PID_EPSILON then
      Math_constrain_value s.integral_error (-(s.integral_limit / s.ki))
        (s.integral_limit / s.ki)
    else s.integral_error
  let separate :=
    s.i_separate_threshold > PID_EPSILON ∧ abs_error ≥ s.i_separate_threshold
  let integral1 :=
    if separate then 0 else integral0 + integral_ratio * s.dt * error
  let i_out := if separate then 0 else s.ki * integral1
  let d_out :=
    if s.enable_d_first = true then
      -s.kd * (feedback - s.pre_feedback) / s.dt
    else s.kd * (error - s.pre_error) / s.dt
  let f_out := s.kf * (target - s.pre_target)
  let output0 := p_out + i_out + d_out + f_out
  let output1 :=
    if s.enable_output_limit = true then
      Math_constrain_value output0 (-s.output_limit) s.output_limit
    else output0
  let s1 : PID_controller_c :=
    { s with
      target := target1, feedback := feedback, error := error,
      max_error := max_error1, p_out := p_out, i_out := i_out,
      d_out := d_out, f_out := f_out, integral_error := integral1,
      output := output1, pre_feedback := feedback, pre_target := target,
      pre_error := error, pre_output := output1,
      update_count := s.update_count + 1 }
  { s1 with state := Update_state s1 }

end PID_controller_c

/-- `MAX_GRIPPERS` (gripper_controller.h). -/
def MAX_GRIPPERS : ℕ := 4

/-- `GRIPPER_CONTROL_PRECISION` (gripper_controller.h): `0.5f` percent. -/
def GRIPPER_CONTROL_PRECISION : ℚ := 1/2

/-- `GRIPPER_PERCENT_EPSILON` (gripper_controller.cpp): `0.1f` percent. -/
def GRIPPER_PERCENT_EPSILON : ℚ := 1/10

/-- `uint32_t` subtraction `a - b` with wrap-around modulo `2^32`, as computed
by the C expressions `now - status->last_feedback_time` etc. on millisecond
tick counters. -/
def u32_sub (a b : ℕ) : ℕ :=
  (a % 2^32 + 2^32 - b % 2^32) % 2^32

/-- The C cast `(uint32_t)` of a nonnegative `float` (truncation toward zero);
negative inputs (undefined behavior in C, never produced here) map to 0. -/
def float_to_u32 (q : ℚ) : ℕ :=
  (⌊q⌋).toNat

/-- `gripper_state_e` (gripper_controller.h). -/
inductive gripper_state_e where
  | GRIPPER_STATE_IDLE
  | GRIPPER_STATE_MOVING
  | GRIPPER_STATE_HOLDING
  | GRIPPER_STATE_ERROR
  | GRIPPER_STATE_CALIBRATING
deriving DecidableEq

/-- `gripper_mode_e` (gripper_controller.h). -/
inductive gripper_mode_e where
  | GRIPPER_MODE_OPEN_LOOP
  | GRIPPER_MODE_CLOSED_LOOP
  | GRIPPER_MODE_FORCE_CONTROL
deriving DecidableEq

/-- `gripper_mapping_t` (gripper_controller.h). -/
structure gripper_mapping_t where
  closed_angle : ℚ
  open_angle : ℚ
  min_step : ℚ
  max_speed : ℚ
  is_calibrated : Bool
  reverse_direction : Bool
deriving DecidableEq

/-- `gripper_status_t` (gripper_controller.h). -/
structure gripper_status_t where
  servo_id : ℕ
  state : gripper_state_e
  mode : gripper_mode_e
  current_percent : ℚ
  target_percent : ℚ
  current_angle : ℚ
  hardware_angle : ℚ
  is_moving : Bool
  movement_progress : ℚ
  movement_start_time : ℕ
  movement_duration : ℕ
  feedback_valid : Bool
  last_feedback_time : ℕ
  position_error : ℚ
  total_movements : ℕ
  max_position_error : ℚ
  last_update_time : ℕ
deriving DecidableEq

/-- `gripper_control_params_t` (gripper_controller.h). -/
structure gripper_control_params_t where
  slope_increase_rate : ℚ
  slope_decrease_rate : ℚ
  slope_real_first : Bool
  pid_kp : ℚ
  pid_ki : ℚ
  pid_kd : ℚ
  pid_output_limit : ℚ
  pid_dead_zone : ℚ
  static_friction_compensation : ℚ
  dynamic_friction_coeff : ℚ
  backlash_compensation : ℚ
  max_position_error : ℚ
  feedback_timeout_ms : ℕ
  safety_stop_timeout : ℕ
deriving DecidableEq

/-- One gripper slot: the per-servo entries of the parallel tables
`g_gripper_status[id]`, `g_gripper_mapping[id]`, `g_gripper_params[id]`,
`g_gripper_pid[id]`, `g_gripper_slope[id]` (gripper_controller.cpp lines
44-48). -/
structure GripperSlot where
  status : gripper_status_t
  mapping : gripper_mapping_t
  params : gripper_control_params_t
  pid : PID_controller_c
  slope : Slope_planner_c
deriving DecidableEq

/-- `gripper_validate_servo_id` (gripper_controller.cpp lines 575-581). -/
def gripper_validate_servo_id (servo_id : ℕ) : Bool :=
  if servo_id ≥ MAX_GRIPPERS then false else true

/-- `gripper_angle_to_percent` (gripper_controller.cpp lines 488-502). -/
def gripper_angle_to_percent (angle : ℚ) (mapping : gripper_mapping_t) : ℚ :=
  let range := mapping.open_angle - mapping.closed_angle
  if Math_abs range < 1/10 then 0
  else
    let percent :=
      if mapping.reverse_direction = true then
        (mapping.open_angle - angle) / range * 100
      else
        (angle - mapping.closed_angle) / range * 100
    Math_constrain_value percent 0 100

/-- `gripper_percent_to_angle` (gripper_controller.cpp lines 504-517). -/
def gripper_percent_to_angle (percent : ℚ) (mapping : gripper_mapping_t) : ℚ :=
  let percent1 := Math_constrain_value percent 0 100
  let range := mapping.open_angle - mapping.closed_angle
  let angle :=
    if mapping.reverse_direction = true then
      mapping.open_angle - percent1 / 100 * range
    else
      mapping.closed_angle + percent1 / 100 * range
  Math_constrain_value angle 0 240

/-- `gripper_configure_mapping` (gripper_controller.cpp lines 142-186) acting
on the addressed slot.  The mutex acquisition is modelled as succeeding (the
embedding is single-threaded); `nullptr` is `none`.  The success path also
pushes the mapping into the legacy servo controller
(`servo_configure_gripper_mapping`), which is transport-side state outside
the slot. -/
def gripper_configure_mapping (servo_id : ℕ) (slot : GripperSlot)
    (mapping : Option gripper_mapping_t) : Bool × GripperSlot :=
  match mapping with
  | none => (false, slot)
  | some m =>
    if ¬ (gripper_validate_servo_id servo_id = true) then (false, slot)
    else if m.closed_angle < 0 ∨ m.closed_angle > 240 ∨
        m.open_angle < 0 ∨ m.open_angle > 240 then (false, slot)
    else if m.min_step < 1/10 ∨ m.min_step > 50 then (false, slot)
    else if Math_abs (m.closed_angle - m.open_angle) < m.min_step then
      (false, slot)
    else (true, { slot with mapping := { m with is_calibrated := true } })

/-- `gripper_control_smooth` (gripper_controller.cpp lines 247-292) acting on
the addressed slot; `initialized` is `g_gripper_system_initialized`, `now` is
`xTaskGetTickCount() * portTICK_PERIOD_MS`, and the mutex acquisition is
modelled as succeeding. -/
def gripper_control_smooth (servo_id : ℕ) (slot : GripperSlot)
    (target_percent : ℚ) (time_ms : ℕ) (initialized : Bool) (now : ℕ) :
    Bool × GripperSlot :=
  if ¬ (gripper_validate_servo_id servo_id = true) then (false, slot)
  else if target_percent < 0 ∨ target_percent > 100 then (false, slot)
  else if ¬ (initialized = true) then (false, slot)
  else
    let duration :=
      if time_ms > 0 then time_ms
      else float_to_u32 (Math_abs (target_percent -
        slot.status.current_percent) / slot.mapping.max_speed * 1000)
    (true,
      { slot with
        status := { slot.status with
          target_percent := target_percent,
          movement_start_time := now,
          movement_duration := duration,
          is_moving := true,
          state := gripper_state_e.GRIPPER_STATE_MOVING,
          movement_progress := 0 },
        slope := slot.slope.Set_target target_percent })

/-- Step 1 of `gripper_update_single` (gripper_controller.cpp lines 387-405):
apply the hardware-position read result (`none` = read failed) to the slot. -/
def gripper_feedback_stage (slot : GripperSlot) (read : Option ℚ) (now : ℕ) :
    GripperSlot :=
  match read with
  | some hardware_angle =>
    { slot with status := { slot.status with
        hardware_angle := hardware_angle,
        current_angle := hardware_angle,
        current_percent := gripper_angle_to_percent hardware_angle
          slot.mapping,
        feedback_valid := true,
        last_feedback_time := now } }
  | none =>
    if u32_sub now slot.status.last_feedback_time >
        slot.params.feedback_timeout_ms then
      { slot with status := { slot.status with
          feedback_valid := false,
          state := gripper_state_e.GRIPPER_STATE_ERROR } }
    else slot

/-- `gripper_update_movement_progress` (gripper_controller.cpp lines
583-598). -/
def gripper_update_movement_progress (slot : GripperSlot) (now : ℕ) :
    GripperSlot :=
  if slot.status.is_moving = false ∨ slot.status.movement_duration = 0 then
    slot
  else
    let elapsed := u32_sub now slot.status.movement_start_time
    if elapsed ≥ slot.status.movement_duration then
      { slot with status := { slot.status with movement_progress := 100 } }
    else
      { slot with status := { slot.status with movement_progress :=
          (elapsed : ℚ) / (slot.status.movement_duration : ℚ) * 100 } }

/-- Step 3 of `gripper_update_single` (gripper_controller.cpp lines 414-456),
the per-mode control dispatch, run only when `is_moving`: its effect on the
slot state (the commanded `target_angle` goes to the transport, abstracted
away).  OPEN_LOOP ticks the slope planner; CLOSED_LOOP ticks the slope
planner and the PID and tracks the position error; FORCE_CONTROL is an
unimplemented no-op. -/
def gripper_control_stage (slot : GripperSlot) : GripperSlot :=
  match slot.status.mode with
  | gripper_mode_e.GRIPPER_MODE_OPEN_LOOP =>
    { slot with slope :=
        ((slot.slope.Set_now_real slot.status.current_percent).Update_period) }
  | gripper_mode_e.GRIPPER_MODE_CLOSED_LOOP =>
    let slope1 :=
      (slot.slope.Set_now_real slot.status.current_percent).Update_period
    let planned_percent := slope1.out
    let planned_angle := gripper_percent_to_angle planned_percent slot.mapping
    let pid1 := slot.pid.Update_period planned_angle slot.status.current_angle
    let position_error :=
      Math_abs (planned_percent - slot.status.current_percent)
    { slot with
      slope := slope1, pid := pid1,
      status := { slot.status with
        position_error := position_error,
        max_position_error :=
          if position_error > slot.status.max_position_error then
            position_error
          else slot.status.max_position_error } }
  | gripper_mode_e.GRIPPER_MODE_FORCE_CONTROL => slot

/-- `gripper_is_movement_complete` (gripper_controller.cpp lines 600-615):
position reached, or planned time elapsed, or slope planner output converged
to the target. -/
def gripper_is_movement_complete (slot : GripperSlot) : Bool :=
  if Math_abs (slot.status.target_percent - slot.status.current_percent) <
      GRIPPER_CONTROL_PRECISION then true
  else if slot.status.movement_progress ≥ 100 then true
  else if Math_abs (slot.slope.out - slot.status.target_percent) <
      GRIPPER_PERCENT_EPSILON then true
  else false

/-- Step 5 of `gripper_update_single` (gripper_controller.cpp lines 462-468):
on completion clear `is_moving`, transition to HOLDING, force progress to
100. -/
def gripper_complete_stage (slot : GripperSlot) : GripperSlot :=
  if gripper_is_movement_complete slot = true then
    { slot with status := { slot.status with
        is_moving := false,
        state := gripper_state_e.GRIPPER_STATE_HOLDING,
        movement_progress := 100 } }
  else slot

/-- `gripper_update_single` (gripper_controller.cpp lines 378-476), one
periodic tick for one slot: feedback read (outcome `read`, `none` = transport
failure), movement progress, per-mode control, transport command (its success
abstracted as `move_ok`, the returned `control_ok`), completion check, and
the `last_update_time` stamp.  The mutex acquisition is modelled as
succeeding. -/
def gripper_update_single (slot : GripperSlot) (read : Option ℚ) (now : ℕ)
    (move_ok : Bool) : Bool × GripperSlot :=
  let slot1 := gripper_feedback_stage slot read now
  let slot2 := gripper_update_movement_progress slot1 now
  if slot2.status.is_moving = true then
    let slot4 := gripper_complete_stage (gripper_control_stage slot2)
    (move_ok,
      { slot4 with status := { slot4.status with last_update_time := now } })
  else
    (false,
      { slot2 with status := { slot2.status with last_update_time := now } })

/-- A concrete slot used to exercise the feedback-timeout tick: MOVING in
open-loop mode, movement of 1000 ms started at t = 0, last good feedback at
t = 0, feedback timeout 5000 ms. -/
def C9slot : GripperSlot :=
  { status :=
      { servo_id := 0,
        state := gripper_state_e.GRIPPER_STATE_MOVING,
        mode := gripper_mode_e.GRIPPER_MODE_OPEN_LOOP,
        current_percent := 50, target_percent := 80,
        current_angle := 125, hardware_angle := 125,
        is_moving := true, movement_progress := 0,
        movement_start_time := 0, movement_duration := 1000,
        feedback_valid := true, last_feedback_time := 0,
        position_error := 0, total_movements := 0,
        max_position_error := 0, last_update_time := 0 },
    mapping :=
      { closed_angle := 160, open_angle := 90, min_step := 5,
        max_speed := 20, is_calibrated := true, reverse_direction := false },
    params :=
      { slope_increase_rate := 2, slope_decrease_rate := 2,
        slope_real_first := true, pid_kp := 1/2, pid_ki := 1/10,
        pid_kd := 1/20, pid_output_limit := 10, pid_dead_zone := 1/2,
        static_friction_compensation := 2, dynamic_friction_coeff := 1/10,
        backlash_compensation := 1, max_position_error := 5,
        feedback_timeout_ms := 5000, safety_stop_timeout := 30000 },
    pid := PID_controller_c.Init (1/2) (1/10) (1/20),
    slope := (Slope_planner_c.Init 2 2 true).Set_target 80 }

/- ------------------------------------------------------------------------
Theorems
------------------------------------------------------------------------- -/

theorem Math_abs_eq_abs (x : ℚ) : Math_abs x = |x| := by
  unfold Math_abs
  split_ifs with h
  · exact (abs_of_neg h).symm
  · exact (abs_of_nonneg (le_of_not_lt h)).symm

theorem Math_constrain_abs_le (x m : ℚ) (hm : 0 ≤ m) :
    |Math_constrain_value x (-m) m| ≤ m := by
  unfold Math_constrain_value
  split_ifs with h1 h2
  · rw [abs_neg, abs_of_nonneg hm]
  · rw [abs_of_nonneg hm]
  · exact abs_le.mpr ⟨le_of_not_lt h1, le_of_not_lt h2⟩

theorem Math_constrain_zero (m : ℚ) (hm : 0 ≤ m) :
    Math_constrain_value 0 (-m) m = 0 := by
  unfold Math_constrain_value
  split_ifs with h1 h2 <;> linarith

/-- C1 (counterexample): with `real_first` enabled the re-anchoring step breaks
the monotonic bound.  Reachable state: `Init(1,1,true)`, one update (output 0),
then `Set_target 100` and `Set_now_real 50`; the next update anchors to 50 and
steps to 51, a jump of 51 > max(1,1) while `|now_planning - target| = 100` is
far above the active rate. -/
theorem C1_counterexample :
    ¬ C1claim_at ((((Slope_planner_c.Init 1 1 true).Update_period).Set_target
        100).Set_now_real 50) := by
  norm_num [C1claim_at, Slope_planner_c.Update_period, Slope_planner_c.Init,
    Slope_planner_c.Set_target, Slope_planner_c.Set_now_real,
    Slope_planner_c.anchor_fires, Slope_planner_c.active_rate, Math_abs]

/-- C1 (amended): the slope monotonic bound holds at every tick at which the
real-first anchor does not fire (in particular whenever `real_first` is
disabled), for nonnegative rates: either the remaining distance is within the
active rate and the output snaps exactly to the target, or
`|out' - out| ≤ max increase_value decrease_value`. -/
theorem C1_slope_monotonic_bound (s : Slope_planner_c)
    (hanchor : ¬ s.anchor_fires)
    (hinc : 0 ≤ s.increase_value) (hdec : 0 ≤ s.decrease_value) :
    (Math_abs (s.now_planning - s.target) ≤ s.active_rate ∧
        (s.Update_period).out = s.target) ∨
    |(s.Update_period).out - s.out| ≤ max s.increase_value s.decrease_value := by
  simp only [Slope_planner_c.Update_period, Slope_planner_c.active_rate,
    if_neg hanchor, Math_abs_eq_abs]
  split_ifs <;>
    first
      | exact Or.inl ⟨le_of_not_lt (by assumption), rfl⟩
      | (right; rw [add_sub_cancel_left, abs_of_nonneg hinc]
         exact le_max_left _ _)
      | (right; rw [add_sub_cancel_left, abs_of_nonneg hdec]
         exact le_max_right _ _)
      | (right; rw [sub_sub_cancel_left, abs_neg, abs_of_nonneg hinc]
         exact le_max_left _ _)
      | (right; rw [sub_sub_cancel_left, abs_neg, abs_of_nonneg hdec]
         exact le_max_right _ _)
      | (right; rw [sub_self, abs_zero]
         exact le_max_of_le_left hinc)

theorem C1_slope_monotonic_bound_witness :
    (Math_abs (((⟨1, 1, 10, 0, 0, 0, false⟩ : Slope_planner_c)).now_planning -
          ((⟨1, 1, 10, 0, 0, 0, false⟩ : Slope_planner_c)).target) ≤
        ((⟨1, 1, 10, 0, 0, 0, false⟩ : Slope_planner_c)).active_rate ∧
      (Slope_planner_c.Update_period ⟨1, 1, 10, 0, 0, 0, false⟩).out = 10) ∨
    |(Slope_planner_c.Update_period ⟨1, 1, 10, 0, 0, 0, false⟩).out - 0| ≤
      max 1 1 :=
  C1_slope_monotonic_bound ⟨1, 1, 10, 0, 0, 0, false⟩
    (by simp [Slope_planner_c.anchor_fires]) (by norm_num) (by norm_num)

/-- C2: real-first re-anchoring.  With `real_first` enabled, `increase_value =
0.1`, `target = 2.0`, `now_planning = 1.5`, `now_real = 1.7`, one
`Update_period` call anchors the output to 1.7 and advances a further rate
step in the same tick, yielding `out = 1.8` — whatever the previous output and
the decrease rate were. -/
theorem C2_real_first_reanchor (dec prev_out : ℚ) :
    (Slope_planner_c.Update_period
      { increase_value := 1/10, decrease_value := dec, target := 2,
        now_planning := 3/2, now_real := 17/10, out := prev_out,
        real_first := true }).out = 9/5 := by
  norm_num [Slope_planner_c.Update_period, Slope_planner_c.anchor_fires,
    Math_abs]

/-- C3 (counterexample): the no-overshoot clamp fails when the real-first
anchor fires.  Reachable state: `Init(0.5,0.5,true)`, target 1, two updates
bring `now_planning = out = 1`; then target 2 and `now_real = 1.9`: the next
update anchors to 1.9 and adds the 0.5 step, producing 2.4 > target even
though `now_planning > 0` and `target > now_planning`. -/
theorem C3_counterexample :
    ((((((Slope_planner_c.Init (1/2) (1/2)
            true).Set_target 1).Update_period).Update_period).Set_target
                2).Set_now_real (19/10)).now_planning > 0 ∧
    ((((((Slope_planner_c.Init (1/2) (1/2)
            true).Set_target 1).Update_period).Update_period).Set_target
                2).Set_now_real (19/10)).target >
      ((((((Slope_planner_c.Init (1/2) (1/2)
            true).Set_target 1).Update_period).Update_period).Set_target
                2).Set_now_real (19/10)).now_planning ∧
    ¬ ((((((((Slope_planner_c.Init (1/2) (1/2)
            true).Set_target 1).Update_period).Update_period).Set_target
                2).Set_now_real (19/10)).Update_period).out ≤
        ((((((Slope_planner_c.Init (1/2) (1/2)
            true).Set_target 1).Update_period).Update_period).Set_target
                2).Set_now_real (19/10)).target) := by
  norm_num [Slope_planner_c.Update_period, Slope_planner_c.Init,
    Slope_planner_c.Set_target, Slope_planner_c.Set_now_real,
    Slope_planner_c.anchor_fires, Math_abs]

/-- C3 (amended): the no-overshoot clamp holds at every tick at which the
real-first anchor does not fire (in particular whenever `real_first` is
disabled), on a state whose output equals its planning cursor: moving from
positive planning toward a larger target never exceeds the target, and moving
toward a smaller target never undershoots it. -/
theorem C3_no_overshoot_clamp (s : Slope_planner_c)
    (hout : s.out = s.now_planning) (hanchor : ¬ s.anchor_fires) :
    (0 < s.now_planning → s.now_planning < s.target → 0 ≤ s.increase_value →
      (s.Update_period).out ≤ s.target) ∧
    (0 < s.now_planning → s.target < s.now_planning → 0 ≤ s.decrease_value →
      s.target ≤ (s.Update_period).out) := by
  constructor
  · intro hnp hlt hinc
    simp only [Slope_planner_c.Update_period, if_neg hanchor, if_pos hnp,
      if_pos hlt, Math_abs_eq_abs, hout]
    have habs : |s.now_planning - s.target| = s.target - s.now_planning := by
      rw [abs_sub_comm]
      exact abs_of_pos (by linarith)
    rw [habs]
    split_ifs with h
    · linarith
    · exact le_rfl
  · intro hnp hgt hdec
    have hlt' : ¬ s.target > s.now_planning := by linarith
    simp only [Slope_planner_c.Update_period, if_neg hanchor, if_pos hnp,
      if_neg hlt', if_pos hgt, Math_abs_eq_abs, hout]
    have habs : |s.now_planning - s.target| = s.now_planning - s.target :=
      abs_of_pos (by linarith)
    rw [habs]
    split_ifs with h
    · linarith
    · exact le_rfl

theorem C3_no_overshoot_clamp_witness :
    (Slope_planner_c.Update_period ⟨1, 1, 10, 5, 0, 5, false⟩).out ≤ 10 ∧
    (2 : ℚ) ≤ (Slope_planner_c.Update_period ⟨1, 1, 2, 5, 0, 5, false⟩).out :=
  ⟨(C3_no_overshoot_clamp ⟨1, 1, 10, 5, 0, 5, false⟩ rfl
      (by simp [Slope_planner_c.anchor_fires])).1
      (by norm_num) (by norm_num) (by norm_num),
   (C3_no_overshoot_clamp ⟨1, 1, 2, 5, 0, 5, false⟩ rfl
      (by simp [Slope_planner_c.anchor_fires])).2
      (by norm_num) (by norm_num) (by norm_num)⟩

theorem dead_zone_error_abs_le (dz e : ℚ) (hdz : 0 ≤ dz) :
    |PID_controller_c.dead_zone_error dz e| ≤ |e| := by
  unfold PID_controller_c.dead_zone_error
  simp only [Math_abs_eq_abs]
  split_ifs with h1 h2 h3 h4
  · simp
  · rw [abs_of_pos (show (0:ℚ) < e - dz by
        have := abs_of_pos h3.1; linarith [h3.2]),
      abs_of_pos h3.1]
    linarith
  · rw [abs_of_neg (show e + dz < 0 by
        have := abs_of_neg h4.1; linarith [h4.2]),
      abs_of_neg h4.1]
    linarith
  · exact le_rfl
  · exact le_rfl

theorem dead_zone_error_eq_zero (dz e : ℚ) (h1 : PID_EPSILON ≤ dz)
    (h2 : |e| ≤ dz) : PID_controller_c.dead_zone_error dz e = 0 := by
  unfold PID_controller_c.dead_zone_error
  simp only [Math_abs_eq_abs]
  rw [if_pos h1, if_pos h2]

theorem integral_speed_ratio_nonneg (a b x : ℚ) :
    0 ≤ PID_controller_c.integral_speed_ratio a b x := by
  unfold PID_controller_c.integral_speed_ratio
  split_ifs with h1 h2 h3
  · norm_num
  · norm_num
  · exact div_nonneg (by linarith) (by push_neg at h2; linarith)
  · exact le_rfl

theorem integral_speed_ratio_le_one (a b x : ℚ) :
    PID_controller_c.integral_speed_ratio a b x ≤ 1 := by
  unfold PID_controller_c.integral_speed_ratio
  split_ifs with h1 h2 h3
  · exact le_rfl
  · exact le_rfl
  · push_neg at h2
    rw [div_le_one (by linarith)]
    linarith
  · norm_num

theorem ratio_contrib_bound (r dt e bigE : ℚ) (hr0 : 0 ≤ r) (hr1 : r ≤ 1)
    (hdt : 0 ≤ dt) (he : |e| ≤ bigE) : |r * dt * e| ≤ dt * bigE := by
  rw [abs_mul, abs_mul, abs_of_nonneg hr0, abs_of_nonneg hdt]
  have h1 : r * dt * |e| ≤ 1 * dt * |e| :=
    mul_le_mul_of_nonneg_right (mul_le_mul_of_nonneg_right hr1 hdt)
      (abs_nonneg e)
  have h2 : dt * |e| ≤ dt * bigE := mul_le_mul_of_nonneg_left he hdt
  linarith

/-- C4 (counterexample): the clamp is applied to `integral_error` BEFORE the
current tick's contribution is added, so the stored value can exceed
`±integral_limit/ki`.  With `integral_limit = 5`, `ki = 2`, `dt = 0.001` and a
constant error of 1000 (target 1000, feedback 0), three updates leave
`integral_error = 3 > 2.5`. -/
theorem C4_counterexample :
    ((((PID_controller_c.Init_full 0 2 0 0 5 0 (1/1000) 0 0 0 0
          false).Update_period 1000 0).Update_period 1000 0).Update_period
            1000 0).integral_error = 3 ∧
    ¬ (|((((PID_controller_c.Init_full 0 2 0 0 5 0 (1/1000) 0 0 0 0
          false).Update_period 1000 0).Update_period 1000 0).Update_period
            1000 0).integral_error| ≤ 5/2) := by
  norm_num [PID_controller_c.Update_period, PID_controller_c.Init_full,
    PID_controller_c.Init, PID_controller_c.Update_state,
    PID_controller_c.dead_zone_error, PID_controller_c.integral_speed_ratio,
    Math_abs, Math_constrain_value, PID_EPSILON, PID_DEFAULT_DT]

/-- C4 (amended): with integral limiting enabled and `ki > PID_EPSILON`, after
every `Update_period` call the integral error is bounded by
`integral_limit/ki` PLUS one tick's worth of contribution `dt * |error|`
(the clamp runs before this tick's accumulation, so the stored value can
overshoot the clamp by at most that much; with `integral_limit = 5`, `ki = 2`
the bound is `2.5 + dt*|error|`, not `2.5`). -/
theorem C4_integral_clamp (s : PID_controller_c) (target feedback : ℚ)
    (hen : s.enable_integral_limit = true) (hki : PID_EPSILON < s.ki)
    (hdz : 0 ≤ s.dead_zone) (hdt : 0 ≤ s.dt) (hil : 0 ≤ s.integral_limit) :
    |(s.Update_period target feedback).integral_error| ≤
      s.integral_limit / s.ki + s.dt * |target - feedback| := by
  have hki0 : (0:ℚ) < s.ki := lt_trans (by norm_num [PID_EPSILON]) hki
  have hm : (0:ℚ) ≤ s.integral_limit / s.ki := div_nonneg hil hki0.le
  have he : |PID_controller_c.dead_zone_error s.dead_zone (target - feedback)|
      ≤ |target - feedback| := dead_zone_error_abs_le _ _ hdz
  have habs0 : (0:ℚ) ≤ |target - feedback| := abs_nonneg _
  have hr0 := integral_speed_ratio_nonneg s.i_variable_speed_a
    s.i_variable_speed_b (Math_abs
      (PID_controller_c.dead_zone_error s.dead_zone (target - feedback)))
  have hr1 := integral_speed_ratio_le_one s.i_variable_speed_a
    s.i_variable_speed_b (Math_abs
      (PID_controller_c.dead_zone_error s.dead_zone (target - feedback)))
  dsimp only [PID_controller_c.Update_period]
  split_ifs with hsep hclamp
  · simpa using add_nonneg hm (mul_nonneg hdt habs0)
  · refine le_trans (abs_add _ _) ?_
    exact add_le_add (Math_constrain_abs_le _ _ hm)
      (ratio_contrib_bound _ _ _ _ hr0 hr1 hdt he)
  · exact absurd ⟨hen, hki⟩ hclamp

theorem C4_integral_clamp_witness :
    |(((PID_controller_c.Init_full 0 2 0 0 5 0 (1/1000) 0 0 0 0
          false)).Update_period 1000 0).integral_error| ≤
      ((PID_controller_c.Init_full 0 2 0 0 5 0 (1/1000) 0 0 0 0
          false)).integral_limit /
        ((PID_controller_c.Init_full 0 2 0 0 5 0 (1/1000) 0 0 0 0
          false)).ki +
      ((PID_controller_c.Init_full 0 2 0 0 5 0 (1/1000) 0 0 0 0
          false)).dt * |(1000:ℚ) - 0| :=
  C4_integral_clamp (PID_controller_c.Init_full 0 2 0 0 5 0 (1/1000) 0 0 0 0
      false) 1000 0
    (by norm_num [PID_controller_c.Init_full, PID_controller_c.Init,
      PID_EPSILON])
    (by norm_num [PID_controller_c.Init_full, PID_controller_c.Init,
      PID_EPSILON])
    (by norm_num [PID_controller_c.Init_full, PID_controller_c.Init, Math_abs])
    (by norm_num [PID_controller_c.Init_full, PID_controller_c.Init,
      PID_EPSILON])
    (by norm_num [PID_controller_c.Init_full, PID_controller_c.Init, Math_abs])

/-- C5 (counterexample): inside the dead zone the error is zeroed, but `d_out`
is the derivative of the STORED error history, so it need not be zero.
Controller `Init(0,0,1)` with dead zone 1: a first update with target 6,
feedback 0 leaves `pre_error = 5`; the next update with target 0.5, feedback 0
(inside the dead zone) yields `d_out = 1*(0-5)/0.001 = -5000 ≠ 0`. -/
theorem C5_counterexample :
    PID_EPSILON ≤ (((PID_controller_c.Init 0 0 1).Set_dead_zone
        1).Update_period 6 0).dead_zone ∧
    |(1/2 : ℚ) - 0| ≤ (((PID_controller_c.Init 0 0 1).Set_dead_zone
        1).Update_period 6 0).dead_zone ∧
    ((((PID_controller_c.Init 0 0 1).Set_dead_zone 1).Update_period
        6 0).Update_period (1/2) 0).d_out = -5000 ∧
    ¬ (((((PID_controller_c.Init 0 0 1).Set_dead_zone 1).Update_period
        6 0).Update_period (1/2) 0).d_out = 0) := by
  norm_num [PID_controller_c.Update_period, PID_controller_c.Init,
    PID_controller_c.Set_dead_zone, PID_controller_c.Update_state,
    PID_controller_c.dead_zone_error, PID_controller_c.integral_speed_ratio,
    Math_abs, Math_constrain_value, PID_EPSILON, PID_DEFAULT_DT, abs_le]

/-- C5 (amended): with the dead zone enabled and `|target - feedback|` inside
it, the error is zeroed and the stored target snapped to the feedback, the
P contribution is zero and no new error is accumulated into the integral;
when in addition the controller's running history is clean (`integral_error =
0`, `pre_error = 0`, error-differentiation mode) and `integral_limit` is
nonnegative (as every setter establishes), the I and D contributions are also
zero and the output is exactly the (possibly output-clamped) feedforward
term. -/
theorem C5_dead_zone_idempotence (s : PID_controller_c) (target feedback : ℚ)
    (hdz : PID_EPSILON ≤ s.dead_zone)
    (herr : |target - feedback| ≤ s.dead_zone)
    (hint : s.integral_error = 0) (hpre : s.pre_error = 0)
    (hdf : s.enable_d_first = false) (hil : 0 ≤ s.integral_limit) :
    (s.Update_period target feedback).error = 0 ∧
    (s.Update_period target feedback).target = feedback ∧
    (s.Update_period target feedback).p_out = 0 ∧
    (s.Update_period target feedback).i_out = 0 ∧
    (s.Update_period target feedback).d_out = 0 ∧
    (s.Update_period target feedback).output =
      (if s.enable_output_limit = true then
        Math_constrain_value ((s.Update_period target feedback).f_out)
          (-s.output_limit) s.output_limit
       else (s.Update_period target feedback).f_out) := by
  have he0 : PID_controller_c.dead_zone_error s.dead_zone (target - feedback)
      = 0 := dead_zone_error_eq_zero _ _ hdz herr
  have htgt : s.dead_zone ≥ PID_EPSILON ∧
      Math_abs (target - feedback) ≤ s.dead_zone :=
    ⟨hdz, by rw [Math_abs_eq_abs]; exact herr⟩
  have habs0 : Math_abs (0:ℚ) = 0 := by norm_num [Math_abs]
  have hi1 : ∀ m : ℚ, 0 ≤ m → Math_constrain_value 0 (-m) m = 0 :=
    fun m hm => Math_constrain_zero m hm
  dsimp only [PID_controller_c.Update_period]
  rw [he0, habs0, if_pos htgt]
  simp only [hdf, hint, hpre, mul_zero, add_zero, sub_zero, zero_div,
    Bool.false_eq_true, if_false, mul_zero, zero_add]
  refine ⟨trivial, trivial, trivial, ?_, trivial, ?_⟩
  · split_ifs with h1 h2
    · rfl
    · rw [hi1 _ (div_nonneg hil (le_of_lt (lt_trans
        (by norm_num [PID_EPSILON]) h2.2))), mul_zero]
    · exact mul_zero _
  · by_cases hsep : s.i_separate_threshold > PID_EPSILON ∧
        (0:ℚ) ≥ s.i_separate_threshold
    · simp only [if_pos hsep, zero_add]
    · by_cases hcl : s.enable_integral_limit = true ∧ s.ki > PID_EPSILON
      · simp only [if_neg hsep, if_pos hcl,
          hi1 _ (div_nonneg hil (le_of_lt (lt_trans
            (by norm_num [PID_EPSILON]) hcl.2))), mul_zero, zero_add]
      · simp only [if_neg hsep, if_neg hcl, mul_zero, zero_add]

theorem C5_dead_zone_idempotence_witness :
    ((((PID_controller_c.Init 1 1 0).Set_dead_zone 2).Update_period 1 0).error
        = 0) ∧
    ((((PID_controller_c.Init 1 1 0).Set_dead_zone 2).Update_period 1 0).target
        = 0) ∧
    ((((PID_controller_c.Init 1 1 0).Set_dead_zone 2).Update_period 1 0).p_out
        = 0) ∧
    ((((PID_controller_c.Init 1 1 0).Set_dead_zone 2).Update_period 1 0).i_out
        = 0) ∧
    ((((PID_controller_c.Init 1 1 0).Set_dead_zone 2).Update_period 1 0).d_out
        = 0) ∧
    ((((PID_controller_c.Init 1 1 0).Set_dead_zone 2).Update_period 1 0).output
      = (if ((PID_controller_c.Init 1 1 0).Set_dead_zone
            2).enable_output_limit = true then
          Math_constrain_value ((((PID_controller_c.Init 1 1
                0).Set_dead_zone 2).Update_period 1 0).f_out)
            (-((PID_controller_c.Init 1 1 0).Set_dead_zone 2).output_limit)
            ((PID_controller_c.Init 1 1 0).Set_dead_zone 2).output_limit
         else (((PID_controller_c.Init 1 1 0).Set_dead_zone
            2).Update_period 1 0).f_out)) :=
  C5_dead_zone_idempotence ((PID_controller_c.Init 1 1 0).Set_dead_zone 2) 1 0
    (by norm_num [PID_controller_c.Init, PID_controller_c.Set_dead_zone,
      Math_abs, PID_EPSILON])
    (by norm_num [PID_controller_c.Init, PID_controller_c.Set_dead_zone,
      Math_abs])
    (by norm_num [PID_controller_c.Init, PID_controller_c.Set_dead_zone])
    (by norm_num [PID_controller_c.Init, PID_controller_c.Set_dead_zone])
    (by norm_num [PID_controller_c.Init, PID_controller_c.Set_dead_zone])
    (by norm_num [PID_controller_c.Init, PID_controller_c.Set_dead_zone])

theorem Update_state_eq_saturated (p : PID_controller_c)
    (h1 : p.enable_output_limit = true) (h2 : PID_EPSILON ≤ Math_abs p.error)
    (h3 : p.dead_zone < Math_abs p.error)
    (h4 : p.output_limit - PID_EPSILON ≤ Math_abs p.output) :
    p.Update_state = PID_state_c.PID_STATE_SATURATED := by
  simp only [PID_controller_c.Update_state]
  rw [if_neg (not_lt.mpr h2), if_neg (not_le.mpr h3), if_pos ⟨h1, h4⟩]

theorem Update_state_eq_stop (p : PID_controller_c) (h : p.error = 0) :
    p.Update_state = PID_state_c.PID_STATE_STOP := by
  simp only [PID_controller_c.Update_state, h]
  norm_num [Math_abs, PID_EPSILON]

/-- C6 (counterexample): SATURATED does not take precedence over STOP.  With
`kp = ki = kd = 0`, `kf = 100`, output limit 10 enabled, one update with
`target = feedback = 5` drives the output to the limit (feedforward 500,
clamped to 10) while the error is 0 — and `Update_state` classifies the
result as STOP, not SATURATED. -/
theorem C6_counterexample :
    ((((PID_controller_c.Init 0 0 0).Set_output_limit 10).Set_feedforward
        100).Update_period 5 5).output = 10 ∧
    ((((PID_controller_c.Init 0 0 0).Set_output_limit 10).Set_feedforward
        100).Update_period 5 5).state = PID_state_c.PID_STATE_STOP ∧
    ¬ (((((PID_controller_c.Init 0 0 0).Set_output_limit 10).Set_feedforward
        100).Update_period 5 5).state = PID_state_c.PID_STATE_SATURATED) := by
  norm_num [PID_controller_c.Update_period, PID_controller_c.Init,
    PID_controller_c.Set_output_limit, PID_controller_c.Set_feedforward,
    PID_controller_c.Update_state, PID_controller_c.dead_zone_error,
    PID_controller_c.integral_speed_ratio, Math_abs, Math_constrain_value,
    PID_EPSILON, PID_DEFAULT_DT]
  decide

/-- C6 (amended): after any `Update_period` call, the state is SATURATED when
output limiting is enabled AND the stored error is at least `PID_EPSILON` in
magnitude AND outside the dead zone AND the output magnitude is within
`PID_EPSILON` of the limit (`Update_state` checks STOP and DEAD_ZONE first,
so an at-limit output with zero error classifies as STOP, not SATURATED);
and whenever the stored (post-dead-zone) error is zero the state is STOP. -/
theorem C6_state_classification (s : PID_controller_c) (target feedback : ℚ) :
    ((s.Update_period target feedback).enable_output_limit = true →
      PID_EPSILON ≤ Math_abs (s.Update_period target feedback).error →
      (s.Update_period target feedback).dead_zone <
        Math_abs (s.Update_period target feedback).error →
      (s.Update_period target feedback).output_limit - PID_EPSILON ≤
        Math_abs (s.Update_period target feedback).output →
      (s.Update_period target feedback).state =
        PID_state_c.PID_STATE_SATURATED) ∧
    ((s.Update_period target feedback).error = 0 →
      (s.Update_period target feedback).state =
        PID_state_c.PID_STATE_STOP) := by
  constructor
  · intro h1 h2 h3 h4
    exact Update_state_eq_saturated _ h1 h2 h3 h4
  · intro h
    exact Update_state_eq_stop _ h

theorem C6_state_classification_witness :
    (((PID_controller_c.Init 1 0 0).Set_output_limit 10).Update_period
        100 0).state = PID_state_c.PID_STATE_SATURATED ∧
    ((PID_controller_c.Init 1 0 0).Update_period 0 0).state =
      PID_state_c.PID_STATE_STOP :=
  ⟨(C6_state_classification ((PID_controller_c.Init 1 0 0).Set_output_limit
        10) 100 0).1
      (by norm_num [PID_controller_c.Update_period, PID_controller_c.Init,
        PID_controller_c.Set_output_limit, PID_controller_c.Update_state,
        PID_controller_c.dead_zone_error,
        PID_controller_c.integral_speed_ratio, Math_abs,
        Math_constrain_value, PID_EPSILON, PID_DEFAULT_DT])
      (by norm_num [PID_controller_c.Update_period, PID_controller_c.Init,
        PID_controller_c.Set_output_limit, PID_controller_c.Update_state,
        PID_controller_c.dead_zone_error,
        PID_controller_c.integral_speed_ratio, Math_abs,
        Math_constrain_value, PID_EPSILON, PID_DEFAULT_DT])
      (by norm_num [PID_controller_c.Update_period, PID_controller_c.Init,
        PID_controller_c.Set_output_limit, PID_controller_c.Update_state,
        PID_controller_c.dead_zone_error,
        PID_controller_c.integral_speed_ratio, Math_abs,
        Math_constrain_value, PID_EPSILON, PID_DEFAULT_DT])
      (by norm_num [PID_controller_c.Update_period, PID_controller_c.Init,
        PID_controller_c.Set_output_limit, PID_controller_c.Update_state,
        PID_controller_c.dead_zone_error,
        PID_controller_c.integral_speed_ratio, Math_abs,
        Math_constrain_value, PID_EPSILON, PID_DEFAULT_DT]),
   (C6_state_classification (PID_controller_c.Init 1 0 0) 0 0).2
      (by norm_num [PID_controller_c.Update_period, PID_controller_c.Init,
        PID_controller_c.Update_state, PID_controller_c.dead_zone_error,
        PID_controller_c.integral_speed_ratio, Math_abs,
        Math_constrain_value, PID_EPSILON, PID_DEFAULT_DT])⟩

/-- C10: passing a negative limit to `Set_output_limit`/`Set_integral_limit`
(or as the `integral_limit`/`output_limit` arguments of `Init_full`) stores
the absolute value in the limit field but sets the enable flag FALSE, because
the enable test compares the signed argument against `PID_EPSILON`;
consequently the subsequent `Update_period` output is the raw sum
`p_out + i_out + d_out + f_out`, not clamped to `|L|`. -/
theorem C10_negative_limit (s : PID_controller_c) (L1 L2 : ℚ)
    (h1 : L1 < 0) (h2 : L2 < 0)
    (kp ki kd kf dt dz a b th : ℚ) (df : Bool) (t f : ℚ) :
    (s.Set_output_limit L1).output_limit = |L1| ∧
    (s.Set_output_limit L1).enable_output_limit = false ∧
    (s.Set_integral_limit L1).integral_limit = |L1| ∧
    (s.Set_integral_limit L1).enable_integral_limit = false ∧
    (PID_controller_c.Init_full kp ki kd kf L1 L2 dt dz a b th
        df).integral_limit = |L1| ∧
    (PID_controller_c.Init_full kp ki kd kf L1 L2 dt dz a b th
        df).enable_integral_limit = false ∧
    (PID_controller_c.Init_full kp ki kd kf L1 L2 dt dz a b th
        df).output_limit = |L2| ∧
    (PID_controller_c.Init_full kp ki kd kf L1 L2 dt dz a b th
        df).enable_output_limit = false ∧
    ((s.Set_output_limit L1).Update_period t f).output =
      ((s.Set_output_limit L1).Update_period t f).p_out +
      ((s.Set_output_limit L1).Update_period t f).i_out +
      ((s.Set_output_limit L1).Update_period t f).d_out +
      ((s.Set_output_limit L1).Update_period t f).f_out := by
  have hn1 : ¬ (L1 > PID_EPSILON) := by
    rw [not_lt]
    calc L1 ≤ 0 := h1.le
      _ ≤ PID_EPSILON := by norm_num [PID_EPSILON]
  have hn2 : ¬ (L2 > PID_EPSILON) := by
    rw [not_lt]
    calc L2 ≤ 0 := h2.le
      _ ≤ PID_EPSILON := by norm_num [PID_EPSILON]
  refine ⟨?_, ?_, ?_, ?_, ?_, ?_, ?_, ?_, ?_⟩
  · simp [PID_controller_c.Set_output_limit, Math_abs_eq_abs]
  · simp [PID_controller_c.Set_output_limit, if_neg hn1]
  · simp [PID_controller_c.Set_integral_limit, Math_abs_eq_abs]
  · simp [PID_controller_c.Set_integral_limit, if_neg hn1]
  · simp [PID_controller_c.Init_full, PID_controller_c.Init, Math_abs_eq_abs]
  · simp [PID_controller_c.Init_full, PID_controller_c.Init, if_neg hn1]
  · simp [PID_controller_c.Init_full, PID_controller_c.Init, Math_abs_eq_abs]
  · simp [PID_controller_c.Init_full, PID_controller_c.Init, if_neg hn2]
  · dsimp only [PID_controller_c.Update_period,
      PID_controller_c.Set_output_limit]
    rw [if_neg hn1]
    simp only [Bool.false_eq_true, if_false]

theorem C10_negative_limit_witness :
    (((PID_controller_c.Init 0 0 0).Set_output_limit (-5)).output_limit =
        |(-5 : ℚ)|) ∧
    (((PID_controller_c.Init 0 0 0).Set_output_limit
        (-5)).enable_output_limit = false) ∧
    (((PID_controller_c.Init 0 0 0).Set_integral_limit (-5)).integral_limit =
        |(-5 : ℚ)|) ∧
    (((PID_controller_c.Init 0 0 0).Set_integral_limit
        (-5)).enable_integral_limit = false) ∧
    ((PID_controller_c.Init_full 0 0 0 0 (-5) (-3) 0 0 0 0 0
        false).integral_limit = |(-5 : ℚ)|) ∧
    ((PID_controller_c.Init_full 0 0 0 0 (-5) (-3) 0 0 0 0 0
        false).enable_integral_limit = false) ∧
    ((PID_controller_c.Init_full 0 0 0 0 (-5) (-3) 0 0 0 0 0
        false).output_limit = |(-3 : ℚ)|) ∧
    ((PID_controller_c.Init_full 0 0 0 0 (-5) (-3) 0 0 0 0 0
        false).enable_output_limit = false) ∧
    ((((PID_controller_c.Init 0 0 0).Set_output_limit (-5)).Update_period
        7 3).output =
      (((PID_controller_c.Init 0 0 0).Set_output_limit (-5)).Update_period
        7 3).p_out +
      (((PID_controller_c.Init 0 0 0).Set_output_limit (-5)).Update_period
        7 3).i_out +
      (((PID_controller_c.Init 0 0 0).Set_output_limit (-5)).Update_period
        7 3).d_out +
      (((PID_controller_c.Init 0 0 0).Set_output_limit (-5)).Update_period
        7 3).f_out) :=
  C10_negative_limit (PID_controller_c.Init 0 0 0) (-5) (-3)
    (by norm_num) (by norm_num) 0 0 0 0 0 0 0 0 0 false 7 3

theorem Math_constrain_id (v lo hi : ℚ) (h1 : lo ≤ v) (h2 : v ≤ hi) :
    Math_constrain_value v lo hi = v := by
  unfold Math_constrain_value
  split_ifs <;> linarith

/-- C7: mapping round-trip.  For any mapping whose angles lie in `[0, 240]`
with `|open - closed| ≥ 0.1` and any `percent ∈ [0, 100]`, converting percent
to angle and back returns exactly the original percent (the embedding is
exact rational arithmetic, so "within floating tolerance" holds with zero
error), for either value of `reverse_direction`. -/
theorem C7_mapping_round_trip (m : gripper_mapping_t) (percent : ℚ)
    (hc0 : 0 ≤ m.closed_angle) (hc1 : m.closed_angle ≤ 240)
    (ho0 : 0 ≤ m.open_angle) (ho1 : m.open_angle ≤ 240)
    (hr : 1/10 ≤ |m.open_angle - m.closed_angle|)
    (hp0 : 0 ≤ percent) (hp1 : percent ≤ 100) :
    gripper_angle_to_percent (gripper_percent_to_angle percent m) m =
      percent := by
  have hrne : m.open_angle - m.closed_angle ≠ 0 := by
    intro h
    rw [h, abs_zero] at hr
    norm_num at hr
  have hguard : ¬ (Math_abs (m.open_angle - m.closed_angle) < 1/10) := by
    rw [Math_abs_eq_abs]
    linarith
  simp only [gripper_percent_to_angle, gripper_angle_to_percent]
  rw [Math_constrain_id percent 0 100 hp0 hp1, if_neg hguard]
  cases hrev : m.reverse_direction with
  | false =>
    simp only [hrev, Bool.false_eq_true, if_false]
    have hb : 0 ≤ m.closed_angle +
        percent / 100 * (m.open_angle - m.closed_angle) ∧
        m.closed_angle + percent / 100 * (m.open_angle - m.closed_angle)
          ≤ 240 := by
      rcases le_or_lt 0 (m.open_angle - m.closed_angle) with h | h
      · have k1 : 0 ≤ percent * (m.open_angle - m.closed_angle) :=
          mul_nonneg hp0 h
        have k2 : percent * (m.open_angle - m.closed_angle) ≤
            100 * (m.open_angle - m.closed_angle) :=
          mul_le_mul_of_nonneg_right hp1 h
        constructor <;> linarith
      · have k1 : percent * (m.open_angle - m.closed_angle) ≤ 0 := by
          have := mul_le_mul_of_nonneg_left h.le hp0
          simpa using this
        have k2 : 100 * (m.open_angle - m.closed_angle) ≤
            percent * (m.open_angle - m.closed_angle) :=
          mul_le_mul_of_nonpos_right hp1 h.le
        constructor <;> linarith
    rw [Math_constrain_id _ 0 240 hb.1 hb.2]
    rw [show (m.closed_angle + percent / 100 * (m.open_angle - m.closed_angle)
        - m.closed_angle) / (m.open_angle - m.closed_angle) * 100 = percent
      from by field_simp; ring]
    exact Math_constrain_id percent 0 100 hp0 hp1
  | true =>
    simp only [hrev, eq_self_iff_true, if_true]
    have hb : 0 ≤ m.open_angle -
        percent / 100 * (m.open_angle - m.closed_angle) ∧
        m.open_angle - percent / 100 * (m.open_angle - m.closed_angle)
          ≤ 240 := by
      rcases le_or_lt 0 (m.open_angle - m.closed_angle) with h | h
      · have k1 : 0 ≤ percent * (m.open_angle - m.closed_angle) :=
          mul_nonneg hp0 h
        have k2 : percent * (m.open_angle - m.closed_angle) ≤
            100 * (m.open_angle - m.closed_angle) :=
          mul_le_mul_of_nonneg_right hp1 h
        constructor <;> linarith
      · have k1 : percent * (m.open_angle - m.closed_angle) ≤ 0 := by
          have := mul_le_mul_of_nonneg_left h.le hp0
          simpa using this
        have k2 : 100 * (m.open_angle - m.closed_angle) ≤
            percent * (m.open_angle - m.closed_angle) :=
          mul_le_mul_of_nonpos_right hp1 h.le
        constructor <;> linarith
    rw [Math_constrain_id _ 0 240 hb.1 hb.2]
    rw [show (m.open_angle - (m.open_angle -
        percent / 100 * (m.open_angle - m.closed_angle))) /
        (m.open_angle - m.closed_angle) * 100 = percent
      from by field_simp; ring]
    exact Math_constrain_id percent 0 100 hp0 hp1

theorem C7_mapping_round_trip_witness :
    gripper_angle_to_percent (gripper_percent_to_angle 25
        ⟨160, 90, 5, 20, false, false⟩) ⟨160, 90, 5, 20, false, false⟩ = 25 ∧
    gripper_angle_to_percent (gripper_percent_to_angle 25
        ⟨160, 90, 5, 20, false, true⟩) ⟨160, 90, 5, 20, false, true⟩ = 25 :=
  ⟨C7_mapping_round_trip ⟨160, 90, 5, 20, false, false⟩ 25
      (by norm_num) (by norm_num) (by norm_num) (by norm_num)
      (by norm_num [le_abs]) (by norm_num) (by norm_num),
   C7_mapping_round_trip ⟨160, 90, 5, 20, false, true⟩ 25
      (by norm_num) (by norm_num) (by norm_num) (by norm_num)
      (by norm_num [le_abs]) (by norm_num) (by norm_num)⟩

/-- C8: synchronous argument validation with no state change.
`gripper_configure_mapping` rejects every mapping with `closed_angle =
open_angle` (the range 0 is necessarily below the validated `min_step ≥
0.1`), and `gripper_control_smooth` rejects every target percent outside
`[0, 100]`; in both cases the call returns `false` and the slot is returned
unchanged (the checks run before any mutation). -/
theorem C8_validation_no_state_change :
    (∀ (servo_id : ℕ) (slot : GripperSlot) (m : gripper_mapping_t),
      m.closed_angle = m.open_angle →
      gripper_configure_mapping servo_id slot (some m) = (false, slot)) ∧
    (∀ (servo_id : ℕ) (slot : GripperSlot) (p : ℚ) (time_ms : ℕ)
        (initialized : Bool) (now : ℕ),
      p < 0 ∨ p > 100 →
      gripper_control_smooth servo_id slot p time_ms initialized now =
        (false, slot)) := by
  constructor
  · intro servo_id slot m heq
    simp only [gripper_configure_mapping]
    split_ifs with h1 h2 h3 h4 <;>
      first
        | rfl
        | (exfalso
           push_neg at h3
           rw [heq, sub_self] at h4
           rw [show Math_abs 0 = 0 from by norm_num [Math_abs]] at h4
           exact h4 (by linarith [h3.1]))
  · intro servo_id slot p time_ms initialized now hp
    simp only [gripper_control_smooth]
    split_ifs <;> rfl

theorem C8_validation_no_state_change_witness :
    gripper_configure_mapping 0 C9slot
        (some ⟨120, 120, 5, 20, false, false⟩) = (false, C9slot) ∧
    gripper_control_smooth 0 C9slot 150 1000 true 0 = (false, C9slot) :=
  ⟨C8_validation_no_state_change.1 0 C9slot ⟨120, 120, 5, 20, false, false⟩
      rfl,
   C8_validation_no_state_change.2 0 C9slot 150 1000 true 0
      (by norm_num)⟩

theorem progress_stage_invariants (slot : GripperSlot) (now : ℕ) :
    (gripper_update_movement_progress slot now).status.state =
      slot.status.state ∧
    (gripper_update_movement_progress slot now).status.feedback_valid =
      slot.status.feedback_valid ∧
    (gripper_update_movement_progress slot now).status.is_moving =
      slot.status.is_moving := by
  dsimp only [gripper_update_movement_progress]
  split_ifs <;> exact ⟨rfl, rfl, rfl⟩

theorem control_stage_invariants (slot : GripperSlot) :
    (gripper_control_stage slot).status.state = slot.status.state ∧
    (gripper_control_stage slot).status.feedback_valid =
      slot.status.feedback_valid := by
  cases h : slot.status.mode <;>
    simp [gripper_control_stage, h]

theorem complete_stage_feedback (slot : GripperSlot) :
    (gripper_complete_stage slot).status.feedback_valid =
      slot.status.feedback_valid := by
  unfold gripper_complete_stage
  split_ifs <;> rfl

theorem complete_stage_state_cases (slot : GripperSlot) :
    (gripper_complete_stage slot).status.state = slot.status.state ∨
    (gripper_complete_stage slot).status.state =
      gripper_state_e.GRIPPER_STATE_HOLDING := by
  unfold gripper_complete_stage
  split_ifs
  · right; rfl
  · left; rfl

theorem update_single_none_fields (slot : GripperSlot) (now : ℕ)
    (move_ok : Bool) :
    (gripper_update_single slot none now move_ok).2.status.feedback_valid =
      (gripper_feedback_stage slot none now).status.feedback_valid ∧
    ((gripper_update_single slot none now move_ok).2.status.state =
      (gripper_feedback_stage slot none now).status.state ∨
     (gripper_update_single slot none now move_ok).2.status.state =
      gripper_state_e.GRIPPER_STATE_HOLDING) := by
  dsimp only [gripper_update_single]
  have hp := progress_stage_invariants (gripper_feedback_stage slot none now)
    now
  split_ifs with hmov
  · have hc := control_stage_invariants
      (gripper_update_movement_progress
        (gripper_feedback_stage slot none now) now)
    have hcf := complete_stage_feedback
      (gripper_control_stage (gripper_update_movement_progress
        (gripper_feedback_stage slot none now) now))
    have hcs := complete_stage_state_cases
      (gripper_control_stage (gripper_update_movement_progress
        (gripper_feedback_stage slot none now) now))
    constructor
    · rw [hcf, hc.2, hp.2.1]
    · rcases hcs with h | h
      · left
        rw [h, hc.1, hp.1]
      · right
        exact h
  · exact ⟨hp.2.1, Or.inl hp.1⟩

/-- C9 (counterexample): when the feedback timeout fires in the same tick in
which the movement-completion check succeeds, the completion handling runs
AFTER the timeout handling and overwrites the ERROR state with HOLDING.
`C9slot` is MOVING with a 1000 ms movement begun at t = 0 and feedback
timeout 5000 ms; at t = 6000 with a failed read, the tick marks
`feedback_valid = false` and ERROR, but the elapsed-time completion then
sets the state to HOLDING. -/
theorem C9_counterexample :
    u32_sub 6000 C9slot.status.last_feedback_time >
      C9slot.params.feedback_timeout_ms ∧
    C9slot.status.state = gripper_state_e.GRIPPER_STATE_MOVING ∧
    (gripper_update_single C9slot none 6000 true).2.status.feedback_valid =
      false ∧
    (gripper_update_single C9slot none 6000 true).2.status.state =
      gripper_state_e.GRIPPER_STATE_HOLDING ∧
    ¬ ((gripper_update_single C9slot none 6000 true).2.status.state =
      gripper_state_e.GRIPPER_STATE_ERROR) := by
  norm_num [gripper_update_single, gripper_feedback_stage,
    gripper_update_movement_progress, gripper_control_stage,
    gripper_complete_stage, gripper_is_movement_complete,
    gripper_angle_to_percent, gripper_percent_to_angle, C9slot, u32_sub,
    Slope_planner_c.Init, Slope_planner_c.Set_target,
    Slope_planner_c.Set_now_real, Slope_planner_c.Update_period,
    Slope_planner_c.anchor_fires, Math_abs, Math_constrain_value,
    GRIPPER_CONTROL_PRECISION, GRIPPER_PERCENT_EPSILON]
  decide

/-- C9 (amended): on a tick with a failed hardware read, if the elapsed time
since the last good feedback exceeds `feedback_timeout_ms` then afterwards
`feedback_valid` is false and the state is ERROR — unless the
movement-completion check fires later in the same tick, in which case the
state ends as HOLDING instead; if the timeout has not yet elapsed, the failed
read leaves `feedback_valid` unchanged and the state unchanged except for the
same possible completion transition to HOLDING. -/
theorem C9_feedback_timeout (slot : GripperSlot) (now : ℕ) (move_ok : Bool)
    (_hne : slot.status.state ≠ gripper_state_e.GRIPPER_STATE_IDLE) :
    ((u32_sub now slot.status.last_feedback_time >
        slot.params.feedback_timeout_ms) →
      ((gripper_update_single slot none now move_ok).2.status.feedback_valid
          = false ∧
       ((gripper_update_single slot none now move_ok).2.status.state =
          gripper_state_e.GRIPPER_STATE_ERROR ∨
        (gripper_update_single slot none now move_ok).2.status.state =
          gripper_state_e.GRIPPER_STATE_HOLDING))) ∧
    (¬ (u32_sub now slot.status.last_feedback_time >
        slot.params.feedback_timeout_ms) →
      ((gripper_update_single slot none now move_ok).2.status.feedback_valid
          = slot.status.feedback_valid ∧
       ((gripper_update_single slot none now move_ok).2.status.state =
          slot.status.state ∨
        (gripper_update_single slot none now move_ok).2.status.state =
          gripper_state_e.GRIPPER_STATE_HOLDING))) := by
  obtain ⟨hfv, hst⟩ := update_single_none_fields slot now move_ok
  constructor
  · intro ht
    have h1 : (gripper_feedback_stage slot none now).status.feedback_valid =
        false := by
      unfold gripper_feedback_stage
      rw [if_pos ht]
    have h2 : (gripper_feedback_stage slot none now).status.state =
        gripper_state_e.GRIPPER_STATE_ERROR := by
      unfold gripper_feedback_stage
      rw [if_pos ht]
    refine ⟨by rw [hfv, h1], ?_⟩
    rcases hst with h | h
    · left
      rw [h, h2]
    · right
      exact h
  · intro ht
    have h1 : gripper_feedback_stage slot none now = slot := by
      unfold gripper_feedback_stage
      rw [if_neg ht]
    refine ⟨by rw [hfv, h1], ?_⟩
    rcases hst with h | h
    · left
      rw [h, h1]
    · right
      exact h

theorem C9_feedback_timeout_witness :
    (((gripper_update_single C9slot none 6000 true).2.status.feedback_valid
        = false ∧
      ((gripper_update_single C9slot none 6000 true).2.status.state =
        gripper_state_e.GRIPPER_STATE_ERROR ∨
       (gripper_update_single C9slot none 6000 true).2.status.state =
        gripper_state_e.GRIPPER_STATE_HOLDING))) ∧
    (((gripper_update_single C9slot none 100 true).2.status.feedback_valid
        = C9slot.status.feedback_valid ∧
      ((gripper_update_single C9slot none 100 true).2.status.state =
        C9slot.status.state ∨
       (gripper_update_single C9slot none 100 true).2.status.state =
        gripper_state_e.GRIPPER_STATE_HOLDING))) :=
  ⟨(C9_feedback_timeout C9slot 6000 true (by simp [C9slot])).1
      (by norm_num [u32_sub, C9slot]),
   (C9_feedback_timeout C9slot 100 true (by simp [C9slot])).2
      (by norm_num [u32_sub, C9slot])⟩
